import Mathlib

/-!
Verification of the virtualbricks core: a shallow embedding of
`virtualbricks/bricks.py` (process lifecycle controller) and
`virtualbricks/configfile.py` (project persistence), with theorems settling
the frozen claims about the natural-language specification.
-/

namespace VirtualBricks

/-! ## Process lifecycle model (`virtualbricks/bricks.py`) -/

namespace PB

/-- The double-quote character, written via its code point. -/
def dq : Char := Char.ofNat 34

/-- The backslash character, written via its code point. -/
def bslash : Char := Char.ofNat 92

/-- A plug of a brick, abstracted to the two predicates the lifecycle guards
query: `p.configured()` and `p.connected()` (their implementations live in
brick subclasses outside the core). -/
structure Plug where
  configuredP : Bool
  connectedP : Bool
deriving DecidableEq, Repr

/-- A remote home host back-reference: only its `connected` flag is consulted
by the lifecycle code. -/
structure HomeHost where
  connected : Bool
deriving DecidableEq, Repr

/-- The mutable per-brick state manipulated by `Brick.poweron`/`poweroff`
in `bricks.py`.  `proc` is the process handle, carrying the spawned pid
(`self.proc` / `self.proc.pid`); `sudoFlag` is the class attribute
`Base._needsudo`; `configuredFlag` abstracts the subclass override of
`Brick.configured`. -/
structure Brick where
  name : String
  btype : String
  sudoFlag : Bool
  configuredFlag : Bool
  plugs : List Plug
  proc : Option Int
  pid : Int
  run_condition : Bool
  active : Bool
  need_restart : Bool
  internal_console : Bool
  homehost : Option HomeHost
  pon_vbevent : String
  poff_vbevent : String
deriving DecidableEq, Repr

/-- `Base.needsudo`: `self.factory.TCP is None and self._needsudo`
(`base.py`). -/
def needsudo (tcpNone : Bool) (b : Brick) : Bool :=
  tcpNone && b.sudoFlag

/-- `Brick.properly_connected`: every plug reports `configured()`. -/
def properly_connected (b : Brick) : Bool :=
  b.plugs.all (·.configuredP)

/-- `Brick.check_links`: every plug reports `connected()`. -/
def check_links (b : Brick) : Bool :=
  b.plugs.all (·.connectedP)

/-- `Brick.pidfile`: `"/tmp/%s.pid" % self.name`. -/
def pidfileOf (b : Brick) : String :=
  "/tmp/" ++ b.name ++ ".pid"

/-- `Brick.escape`: `re.sub('"', '\\"', arg)` — each double quote is replaced
by a backslash followed by the quote. -/
def escape (s : String) : String :=
  String.mk (s.data.flatMap (fun c => if c = dq then [bslash, c] else [c]))

/-- The value attached to a command-builder switch: either a configuration
key to look up (`self.cfg.get(v)`) or a callable, modelled by the value it
returns (`v()`); `none` models a Python `None` result. -/
inductive CmdVal where
  | key (k : String)
  | fnval (s : Option String)
deriving DecidableEq, Repr

/-- Resolve a command-builder value against the configuration mapping,
as in the body of `Brick.build_cmd_line`. -/
def resolveVal (cfg : String → Option String) : CmdVal → Option String
  | .key k => cfg k
  | .fnval s => s

/-- `Brick.build_cmd_line`: iterate the command builder, skipping switches
that start with `#`; a resolved value equal to `"*"` emits the switch alone;
otherwise a non-`None`, non-empty value emits the switch (omitted when the
switch starts with `*`) followed by the value. -/
def build_cmd_line (cfg : String → Option String)
    (cb : List (String × CmdVal)) : List String :=
  cb.foldl
    (fun res e =>
      if e.1.startsWith "#" then res
      else
        match resolveVal cfg e.2 with
        | some value =>
            if value = "*" then res ++ [e.1]
            else if value.length > 0 then
              (if e.1.startsWith "*" then res ++ [value] else res ++ [e.1, value])
            else res
        | none => res)
    []

/-- `Brick.args`: the program path followed by the built command line. -/
def args (prog : String) (cfg : String → Option String)
    (cb : List (String × CmdVal)) : List String :=
  prog :: build_cmd_line cfg cb

/-- The per-entry contribution in the words of the specification: a reserved
(`#`-prefixed) switch contributes nothing; a wildcard-sentinel value
contributes the switch alone; a non-empty value contributes the switch
(omitted when marked positional-only by a `*` prefix) then the value;
a missing or empty value contributes nothing.  Written for comparison with
`build_cmd_line`, which is transcribed from the source loop. -/
def claimContribution (cfg : String → Option String)
    (e : String × CmdVal) : List String :=
  if e.1.startsWith "#" then []
  else
    match resolveVal cfg e.2 with
    | some value =>
        if value = "*" then [e.1]
        else if value.length > 0 then
          (if e.1.startsWith "*" then [value] else [e.1, value])
        else []
    | none => []

/-- `Brick._poweron`, Qemu branch of the sudo wrap: a fresh vector is built by
appending the launcher, each escaped original argument, `-pidfile` and the
pidfile path (transcribed as the source's sequence of `append` calls). -/
def wrapQemu (su : String) (cl : List String) (pf : String) : List String :=
  (cl.foldl (fun acc a => acc ++ [escape a]) [su]) ++ ["-pidfile"] ++ [pf]

/-- `Brick._poweron`, non-Qemu sudo wrap: `sudoarg` accumulates every original
argument followed by a space, then `-P <pidfile>` is appended. -/
def sudoargOf (cl : List String) (pf : String) : String :=
  cl.foldl (fun acc a => acc ++ a ++ " ") "" ++ "-P " ++ pf

/-- `Brick._poweron`, non-Qemu sudo wrap: `command_line[0]` and
`command_line[1]` are overwritten in place (`none` models the uncaught
`IndexError` raised when the vector has fewer than two elements). -/
def wrapOther (su : String) (cl : List String) (pf : String) :
    Option (List String) :=
  if 2 ≤ cl.length then
    some ((cl.set 0 su).set 1 (escape (sudoargOf cl pf)))
  else none

/-- Observable side effects of the lifecycle operations, in emission order:
`spawned` records the argument vector handed to `subprocess.Popen`;
`remoteSend` a command forwarded to the home host; `evPoweron` a related
event fired by trigger evaluation; `warned` the warning logged when a named
trigger event does not resolve. -/
inductive BEvent where
  | changed
  | spawned (cl : List String)
  | brickStarted (n : String)
  | brickStopped (n : String)
  | remoteSend (msg : String)
  | evPoweron (n : String)
  | warned
deriving DecidableEq, Repr

/-- Typed errors that escape `Brick.poweron` to the caller.  The error classes
live in `virtualbricks.errors`, which is outside the provided sources;
`bricks.py` raises `errors.BadConfigError`, `errors.NotConnectedError` and
`errors.LinkLoopError`, which the specification names `NotConfiguredError`,
`NotConnectedError` and `LinkIntegrityError`.  `indexError` models the
uncaught Python `IndexError` from the in-place non-Qemu sudo rewrite on a
vector shorter than two elements. -/
inductive PowerErr where
  | notConfigured
  | notConnected
  | linkIntegrity
  | indexError
deriving DecidableEq, Repr

/-- Environment consulted by `poweron`: whether `factory.TCP is None`, the
result of `self.args()` (`none` models an exception, which the source catches
and logs), the configured privilege launcher `settings.get("sudo")`, the
result of `subprocess.Popen` (`none` models `OSError`, caught and logged),
the internal-console open result, and which event names
`factory.get_event_by_name` resolves. -/
structure StartEnv where
  tcpNone : Bool
  argsResult : Option (List String)
  sudoPath : String
  spawnPid : Option Int
  consoleOk : Bool
  eventExists : String → Bool

/-- `Brick.start_related_events`: no-op when both flags are false or the
relevant slot (`poff_vbevent` when `off`, `pon_vbevent` when `on`) is empty;
otherwise resolve the chosen event name and fire `poweron` on it, or log a
warning when it does not resolve.  Transcribed guard-for-guard from the
source, including the combined early-return condition
`(off and not poff_vbevent) or (on and not pon_vbevent)`. -/
def start_related_events (b : Brick) (evExists : String → Bool)
    (onF offF : Bool) : List BEvent :=
  if onF = false ∧ offF = false then []
  else if (offF ∧ b.poff_vbevent = "") ∨ (onF ∧ b.pon_vbevent = "") then []
  else
    let evname := if offF then b.poff_vbevent else b.pon_vbevent
    if evExists evname then [.evPoweron evname] else [.warned]

/-- `Brick.post_poweron`: mark active and evaluate triggers with `on=True`
(`off` keeps its default `False`). -/
def post_poweron (b : Brick) (evExists : String → Bool) :
    Brick × List BEvent :=
  ({ b with active := true }, start_related_events b evExists true false)

/-- `Brick.post_poweroff`: mark inactive and evaluate triggers with
`off=True` — the source call `self.start_related_events(off=True)` leaves
`on` at its default `True`. -/
def post_poweroff (b : Brick) (evExists : String → Bool) :
    Brick × List BEvent :=
  ({ b with active := false }, start_related_events b evExists true true)

/-- `Brick._poweron`, transcribed branch for branch: no-op when a process
handle exists or argument building fails; apply the sudo wrap when
privileges are required (Qemu rebuilds the vector, every other type rewrites
slots 0 and 1 in place — an `IndexError` escapes when the vector is too
short); forward to a connected home host, or abort when it is disconnected;
otherwise spawn locally, and on success record the handle and pid, open the
internal console, emit `brick-started`, raise the run flag and run
`post_poweron`. -/
def poweronImpl (b : Brick) (env : StartEnv) :
    Except PowerErr (Brick × List BEvent) :=
  if b.proc ≠ none then .ok (b, [])
  else
    match env.argsResult with
    | none => .ok (b, [])
    | some cl =>
      let wrapped : Except PowerErr (List String) :=
        if needsudo env.tcpNone b then
          if b.btype = "Qemu" then .ok (wrapQemu env.sudoPath cl (pidfileOf b))
          else
            match wrapOther env.sudoPath cl (pidfileOf b) with
            | some w => .ok w
            | none => .error .indexError
        else .ok cl
      wrapped.bind fun command_line =>
        match b.homehost with
        | some h =>
            if h.connected then .ok (b, [.remoteSend (b.name ++ " on")])
            else .ok (b, [])
        | none =>
          match env.spawnPid with
          | none => .ok (b, [])
          | some p =>
              let b1 : Brick :=
                { b with proc := some p, pid := p,
                         internal_console := env.consoleOk,
                         run_condition := true }
              let post := post_poweron b1 env.eventExists
              .ok (post.1,
                   [.spawned command_line, .brickStarted b.name] ++ post.2)

/-- `Brick.poweron`: when no global TCP-control mode is active, guard on
`configured()`, `properly_connected()` and `check_links()` in that order,
raising the corresponding typed error; then run `_poweron` and emit
`changed`. -/
def poweron (b : Brick) (env : StartEnv) :
    Except PowerErr (Brick × List BEvent) :=
  if env.tcpNone then
    if ¬b.configuredFlag then .error .notConfigured
    else if ¬properly_connected b then .error .notConnected
    else if ¬check_links b then .error .linkIntegrity
    else (poweronImpl b env).map (fun r => (r.1, r.2 ++ [.changed]))
  else (poweronImpl b env).map (fun r => (r.1, r.2 ++ [.changed]))

/-- Environment consulted by `poweroff`: whether `factory.TCP is None`, the
initial `self.proc.poll()` result (`none` = still alive), the exit statuses
of the privileged and plain kill commands, and whether the bounded-sleep
wait loop eventually observes termination. -/
structure StopEnv where
  tcpNone : Bool
  pollFirst : Option Int
  sudoKillRet : Int
  killRet : Int
  terminates : Bool
  eventExists : String → Bool

/-- Result of `poweroff`: either the call returns with a new state and
emitted events, or it never returns because the unbounded wait loop never
observes process termination. -/
inductive StopResult where
  | ret (b : Brick) (evs : List BEvent)
  | hang

/-- `Brick.poweroff`, transcribed branch for branch: no-op without a process
handle or with the run flag already false; the run flag is cleared before any
blocking work; a home-host brick forwards `"<name> off\n"` and optimistically
clears the handle; a live local process is killed (privileged bricks through
the pidfile, others aborting when the tracked pid is ≤ 1), a non-zero kill
status aborting the sequence; then the wait loop polls until termination,
the handle and console are cleared, `brick-stopped` is emitted and
`post_poweroff` runs. -/
def poweroff (b : Brick) (env : StopEnv) : StopResult :=
  if b.proc = none then .ret b []
  else if b.run_condition = false then .ret b []
  else
    let b1 : Brick := { b with run_condition := false }
    match b1.homehost with
    | some _ =>
        .ret { b1 with proc := none } [.remoteSend (b1.name ++ " off\n")]
    | none =>
      let teardown : StopResult :=
        if env.pollFirst ≠ none ∨ env.terminates then
          let b2 : Brick :=
            { b1 with proc := none, need_restart := false,
                      internal_console := false }
          let post := post_poweroff b2 env.eventExists
          .ret post.1 ([.brickStopped b2.name] ++ post.2)
        else .hang
      if env.pollFirst = none then
        if needsudo env.tcpNone b1 then
          if env.sudoKillRet ≠ 0 then .ret b1 [] else teardown
        else
          match b1.proc with
          | some p =>
              if p ≤ 1 then .ret b1 []
              else if env.killRet ≠ 0 then .ret b1 [] else teardown
          | none => teardown
      else teardown

end PB

end VirtualBricks

namespace VirtualBricks

/-! ## Project persistence model (`virtualbricks/configfile.py`)

The model covers the topology observables the claims quantify over: bricks,
their socks and plugs, and the trailer-line graph.  Remote-host and
disk-image registries are outside every claim's observables and are not
carried in the factory state; their sections are still consumed by the
restore loop. -/

namespace CF

/-- A sock as persisted: the owning brick's name (`s.brick.name`), its
project-wide `nickname`, `model` and `mac`. -/
structure Sock where
  brickName : String
  nickname : String
  model : String
  mac : String
deriving DecidableEq, Repr

/-- A plug as persisted: the owning brick's name and type (`p.brick.name`,
`p.brick.get_type()`), the optionally bound sock (`p.sock`), `model`, `mac`
and `mode`. -/
structure Plug where
  brickName : String
  brickType : String
  sock : Option Sock
  model : String
  mac : String
  mode : String
deriving DecidableEq, Repr

/-- A brick as seen by the persistence engine: name, type tag, owned socks
and plugs, and the pending `config_socks` queue filled by deferred non-Qemu
link records. -/
structure Brick where
  name : String
  btype : String
  socks : List Sock
  plugs : List Plug
  config_socks : List String
deriving DecidableEq, Repr

/-- The factory state persistence operates on: the brick list, the
project-wide registered sock list (`factory.socks`, consulted by link
resolution) and the event-name registry. -/
structure Factory where
  bricks : List Brick
  socks : List Sock
  events : List String
deriving DecidableEq, Repr

/-- The factory produced by `factory.reset()` before a restore. -/
def emptyFactory : Factory := { bricks := [], socks := [], events := [] }

/-- Modelled from the spec: the shared host-only pseudo-socket
(`virtualmachines.hostonly_sock`, outside the provided sources) that the
well-known sentinel name `_hostonly` resolves to. -/
def hostonly_sock : Sock :=
  { brickName := "", nickname := "_hostonly", model := "", mac := "" }

/-- Modelled from the spec: `Qemu.add_sock` is absent from the provided
sources.  `__restore_from` calls `bb.add_sock(macaddr, model)` without the
nickname parsed from the file (the parsed `sockname` variable is dead), so
the new sock's nickname is produced by a generation rule `gen`, a function
of the owning brick's name and the sock's position, independent of the
file's nickname field.  The sock is registered project-wide. -/
def add_sock (gen : String → Nat → String) (b : Brick) (mac model : String) :
    Brick × Sock :=
  let s : Sock :=
    { brickName := b.name, nickname := gen b.name b.socks.length,
      model := model, mac := mac }
  ({ b with socks := b.socks ++ [s] }, s)

/-- Modelled from the spec: `Qemu.add_plug` is absent from the provided
sources; it appends a plug bound to the given sock, carrying the parsed mac
and model; the mode is host-only for the host-only pseudo-socket and vde
otherwise. -/
def add_plug (b : Brick) (s : Sock) (mac model : String) : Brick :=
  { b with plugs := b.plugs ++
      [{ brickName := b.name, brickType := b.btype, sock := some s,
         model := model, mac := mac,
         mode := if s.nickname = "_hostonly" then "hostonly" else "vde" }] }

/-- Modelled from the spec: `factory.newbrick` creates a brick of the given
type with the given name; names are unique within their kind, so a duplicate
raises (the restore loop catches this and skips the line). -/
def newbrick (f : Factory) (ntype nm : String) : Except String Factory :=
  if f.bricks.any (fun b => b.name = nm) then .error "name in use"
  else
    .ok { f with bricks := f.bricks ++
            [{ name := nm, btype := ntype, socks := [], plugs := [],
               config_socks := [] }] }

/-- Modelled from the spec: `factory.newevent` registers the event name
(event bodies are outside the claims' observables). -/
def newevent (f : Factory) (nm : String) : Factory :=
  { f with events := f.events ++ [nm] }

/-- Modelled from the spec: `factory.connect_to(b, c)` resolves the queued
sock nickname `c` in the second pass (the sentinel maps to the host-only
pseudo-socket) and binds a plug of `b` to it; an unresolved name leaves the
brick unchanged. -/
def connect_to (socks : List Sock) (b : Brick) (c : String) : Brick :=
  match (if c = "_hostonly" then some hostonly_sock
         else socks.find? (fun s => s.nickname = c)) with
  | some s => add_plug b s "" ""
  | none => b

/-- One segment of a Python `str.format` template: literal text or a
`{root.attr}` replacement field. -/
inductive Seg where
  | lit (s : String)
  | field (root attr : String)
deriving DecidableEq, Repr

/-- A value bound to a format-template keyword argument. -/
inductive FVal where
  | sockV (s : Sock)
  | plugV (p : Plug)
deriving DecidableEq, Repr

/-- Attribute access on a bound format value, covering exactly the attribute
paths the save templates use. -/
def FVal.attrOf : FVal → String → String
  | .sockV s, "brick.name" => s.brickName
  | .sockV s, "nickname" => s.nickname
  | .sockV s, "model" => s.model
  | .sockV s, "mac" => s.mac
  | .plugV p, "brick.name" => p.brickName
  | .plugV p, "sock.nickname" => ((p.sock.map Sock.nickname).getD "")
  | .plugV p, "model" => p.model
  | .plugV p, "mac" => p.mac
  | _, _ => ""

/-- `str.format` on a template: a replacement field whose root is not among
the keyword arguments raises `KeyError`, as Python does. -/
def render (env : List (String × FVal)) (segs : List Seg) :
    Except String String :=
  segs.foldlM
    (fun acc sg =>
      match sg with
      | .lit t => pure (acc ++ t)
      | .field root attr =>
          match env.find? (fun q => q.1 = root) with
          | some q => pure (acc ++ q.2.attrOf attr)
          | none => Except.error ("KeyError: " ++ root))
    ""

/-- `"sock|{s.brick.name}|{s.nickname}|{s.model}|{s.mac}\n"`. -/
def sockTemplate : List Seg :=
  [.lit "sock|", .field "s" "brick.name", .lit "|", .field "s" "nickname",
   .lit "|", .field "s" "model", .lit "|", .field "s" "mac"]

/-- `"link|{p.brick.name}|{p.sock.nickname}|{p.model}|{p.mac}\n"`. -/
def linkQemuTemplate : List Seg :=
  [.lit "link|", .field "p" "brick.name", .lit "|",
   .field "p" "sock.nickname", .lit "|", .field "p" "model", .lit "|",
   .field "p" "mac"]

/-- `"userlink|{p.brick.name}||{p.model}|{pl.mac}\n"` — note the template's
last field names the undefined keyword `pl`, as in the source. -/
def userlinkTemplate : List Seg :=
  [.lit "userlink|", .field "p" "brick.name", .lit "||",
   .field "p" "model", .lit "|", .field "pl" "mac"]

/-- `"link|{p.brick.name}|{p.sock.nickname}\n"`. -/
def linkTemplate : List Seg :=
  [.lit "link|", .field "p" "brick.name", .lit "|",
   .field "p" "sock.nickname"]

/-- `ConfigFile.__save_to` restricted to the modelled state, as a list of
output lines: one section header per brick (`brick.save_to` is outside the
provided sources; modelled from the spec as the `[<BrickType>:<name>]`
header, configuration bodies being outside the claims' observables), then a
`sock|` line for every sock of every Qemu brick, then one trailer line per
plug with a bound sock, chosen by brick type and plug mode.  Rendering a
trailer line can raise `KeyError`, which aborts the save. -/
def saveLines (f : Factory) : Except String (List String) := do
  let headers := f.bricks.map (fun b => "[" ++ b.btype ++ ":" ++ b.name ++ "]")
  let socks := f.bricks.foldl
    (fun acc b => if b.btype = "Qemu" then acc ++ b.socks else acc) []
  let plugs := f.bricks.foldl
    (fun acc b => acc ++ b.plugs.filter (fun p => p.sock.isSome)) []
  let sockLines ← socks.mapM (fun s => render [("s", .sockV s)] sockTemplate)
  let plugLines ← plugs.mapM (fun p =>
    if p.brickType = "Qemu" then
      if p.mode = "vde" then render [("p", .plugV p)] linkQemuTemplate
      else render [("p", .plugV p)] userlinkTemplate
    else render [("p", .plugV p)] linkTemplate)
  pure (headers ++ sockLines ++ plugLines)

/-- `re.sub(' ', '', l)`: all space characters removed. -/
def removeSpaces (l : String) : String :=
  String.mk (l.data.filter (fun c => c ≠ ' '))

/-- Split a character list on a separator character, keeping empty pieces,
as Python `str.split` with an explicit separator does. -/
def splitOnChar (sep : Char) : List Char → List (List Char)
  | [] => [[]]
  | c :: cs =>
    match splitOnChar sep cs with
    | h :: t => if c = sep then [] :: h :: t else (c :: h) :: t
    | [] => if c = sep then [[], []] else [[c]]

/-- `l.split("|")` on the pipe-delimited trailer records. -/
def fields (s : String) : List String :=
  (splitOnChar (Char.ofNat 124) s.data).map String.mk

/-- `l.split(":")` on section-header lines. -/
def colonSplit (s : String) : List String :=
  (splitOnChar (Char.ofNat 58) s.data).map String.mk

/-- Whether a character list starts with the given pattern. -/
def startsWithList : List Char → List Char → Bool
  | _, [] => true
  | [], _ :: _ => false
  | a :: as, b :: bs => a = b && startsWithList as bs

/-- `s.startswith(pre)`. -/
def startsWithStr (s pre : String) : Bool :=
  startsWithList s.data pre.data

/-- Whether `pre` occurs anywhere in `l`. -/
def containsList : List Char → List Char → Bool
  | [], pre => pre.isEmpty
  | c :: rest, pre => startsWithList (c :: rest) pre || containsList rest pre

/-- Whether `sub` occurs anywhere in `l` (the effect of the source's
`re.search("\A.*sock\|", l)`-style tests). -/
def containsSub (sub l : String) : Bool :=
  containsList l.data sub.data

/-- The `sock|` branch of `__restore_from` on one brick: a brick whose name
matches field 1 and whose type is Qemu gains a sock built from fields 4
(mac) and 3 (model) — accessing them raises `IndexError` on a shorter
record — while the parsed nickname field 2 is dead; any other brick is
untouched. -/
def sockOne (gen : String → Nat → String) (xs : List String) (b : Brick) :
    Except String (Brick × List Sock) :=
  if b.name = xs.getD 1 "" then
    if b.btype = "Qemu" then
      match xs.get? 3, xs.get? 4 with
      | some model, some mac =>
          let r := add_sock gen b mac model
          .ok (r.1, [r.2])
      | _, _ => .error "IndexError"
    else .ok (b, [])
  else .ok (b, [])

/-- The `sock|` branch over the brick list (`for bb in iter(factory.bricks)`),
collecting the newly registered socks in iteration order; the first raised
`IndexError` aborts. -/
def sockOnBricks (gen : String → Nat → String) (xs : List String) :
    List Brick → Except String (List Brick × List Sock)
  | [] => .ok ([], [])
  | b :: bs =>
    match sockOne gen xs b, sockOnBricks gen xs bs with
    | .ok hd, .ok tl => .ok (hd.1 :: tl.1, hd.2 ++ tl.2)
    | .error e, _ => .error e
    | .ok _, .error e => .error e

/-- Factory-level effect of a `sock|` record. -/
def sockBranch (gen : String → Nat → String) (f : Factory)
    (xs : List String) : Except String Factory :=
  match sockOnBricks gen xs f.bricks with
  | .error e => .error e
  | .ok r => .ok { f with bricks := r.1, socks := f.socks ++ r.2 }

/-- The `link|` branch of `__restore_from` on one brick: a Qemu brick whose
name matches field 1 resolves field 2 against the registered socks (sentinel
`_hostonly` included) after reading fields 3 and 4 (raising `IndexError` on
a shorter record), gaining a bound plug on success and being skipped with a
warning otherwise; a matching non-Qemu brick queues field 2 in its
`config_socks`; non-matching bricks are untouched. -/
def linkOne (socks : List Sock) (xs : List String) (b : Brick) :
    Except String Brick :=
  if b.name = xs.getD 1 "" then
    if b.btype = "Qemu" then
      match xs.get? 3, xs.get? 4 with
      | some model, some mac =>
          match (if xs.getD 2 "" = "_hostonly" then some hostonly_sock
                 else socks.find? (fun s => s.nickname = xs.getD 2 "")) with
          | some s => .ok (add_plug b s mac model)
          | none => .ok b
      | _, _ => .error "IndexError"
    else .ok { b with config_socks := b.config_socks ++ [xs.getD 2 ""] }
  else .ok b

/-- The `link|` branch over the brick list; the first raised `IndexError`
aborts. -/
def linkOnBricks (socks : List Sock) (xs : List String) :
    List Brick → Except String (List Brick)
  | [] => .ok []
  | b :: bs =>
    match linkOne socks xs b, linkOnBricks socks xs bs with
    | .ok b2, .ok bs2 => .ok (b2 :: bs2)
    | .error e, _ => .error e
    | .ok _, .error e => .error e

/-- Factory-level effect of a `link|`/`userlink|` record. -/
def linkBranch (f : Factory) (xs : List String) : Except String Factory :=
  match linkOnBricks f.socks xs f.bricks with
  | .error e => .error e
  | .ok bs => .ok { f with bricks := bs }

/-- The two independent trailer tests `__restore_from` runs on every
(space-stripped) line, in source order: the `sock|` branch, then the `link|`
branch, each guarded by a substring match and a minimum of 3 pipe-delimited
fields. -/
def trailerStep (gen : String → Nat → String) (f : Factory) (s : String) :
    Except String Factory :=
  match (if containsSub "sock|" s ∧ 3 ≤ (fields s).length
         then sockBranch gen f (fields s) else .ok f) with
  | .error e => .error e
  | .ok f1 =>
      if containsSub "link|" s ∧ 3 ≤ (fields s).length
      then linkBranch f1 (fields s) else .ok f1

/-- `for b in factory.bricks: for c in b.config_socks: factory.connect_to`,
the second pass run after the read loop ends. -/
def secondPass (f : Factory) : Factory :=
  { f with bricks :=
      f.bricks.map (fun b => b.config_socks.foldl (connect_to f.socks) b) }

/-- `ConfigFile.__restore_from` over the file's lines.  Every line is first
space-stripped, then run through the two trailer branches, then — when it
starts with `[` — parsed as a section header: splitting on `:` without a
second part raises an uncaught `IndexError`; an `Event` header registers the
event; `DiskImage`/`RemoteHost` headers hand the following body lines to
their inline loop (modelled from the spec: the loop consumes `key=value`
lines up to the next header; registry effects and absorbed per-line errors
are outside the claims' observables); any other header is a brick
declaration, whose instantiation failure is caught and skipped, and whose
`load_from` consumes the (modelled-empty) body.  At end of input the
`config_socks` second pass runs.  The inline body-consuming loops are
modelled by the `skip` flag: while it is raised, lines are consumed
unprocessed until one starts with `[`, which the main loop then reprocesses
in full, exactly as the source's `continue`-driven control flow does. -/
def restoreLoop (gen : String → Nat → String) :
    Bool → Factory → List String → Except String Factory
  | _, f, [] => .ok (secondPass f)
  | skip, f, l :: rest =>
    if skip ∧ ¬startsWithStr l "[" then restoreLoop gen true f rest
    else
      let s := removeSpaces l
      match trailerStep gen f s with
      | .error e => .error e
      | .ok f2 =>
        if startsWithStr s "[" then
          match (colonSplit s).get? 1 with
          | none => .error "IndexError"
          | some seg =>
            let ntype :=
              (colonSplit (String.mk
                (s.data.dropWhile (fun c => c = '[')))).getD 0 ""
            let name := String.mk
              (((seg.data.reverse).dropWhile (fun c => c = ']')).reverse)
            if ntype = "Event" then
              restoreLoop gen false (newevent f2 name) rest
            else if ntype = "DiskImage" ∨ ntype = "RemoteHost" then
              restoreLoop gen true f2 rest
            else
              match newbrick f2 ntype name with
              | .error _ => restoreLoop gen false f2 rest
              | .ok f3 => restoreLoop gen false f3 rest
        else restoreLoop gen false f2 rest

/-- `ConfigFile.__restore_from` on a line list: the loop starts outside any
inline section-consuming state. -/
def restoreFrom (gen : String → Nat → String) (f : Factory)
    (lines : List String) : Except String Factory :=
  restoreLoop gen false f lines

/-- The set-style observables the round-trip claim compares. -/
def brickNames (f : Factory) : List String :=
  f.bricks.map (·.name)

/-- All sock nicknames in the model, in brick order. -/
def sockNicknames (f : Factory) : List String :=
  f.bricks.flatMap (fun b => b.socks.map (·.nickname))

/-- All plug-to-sock bindings in the model, as
(owning brick name, bound sock nickname) pairs. -/
def plugBindings (f : Factory) : List (String × String) :=
  f.bricks.flatMap
    (fun b => b.plugs.filterMap (fun p => p.sock.map (fun s => (b.name, s.nickname))))

/-- An example nickname generation rule used to instantiate closed
theorems: the default auto-generated nickname, a function of the owning
brick's name and the sock's index. -/
def defaultGen : String → Nat → String :=
  fun n i => n ++ "_sock_eth" ++ toString i

/-- A filesystem, as a map from path to file contents. -/
def FSm : Type := String → Option String

/-- Write a file (create or overwrite). -/
def fsSet (fs : FSm) (p v : String) : FSm :=
  fun q => if q = p then some v else fs q

/-- Delete a file. -/
def fsRemove (fs : FSm) (p : String) : FSm :=
  fun q => if q = p then none else fs q

/-- `os.path.isfile`. -/
def isfile (fs : FSm) (p : String) : Bool :=
  (fs p).isSome

/-- Environment-chosen outcome of an `os.rename` call on an existing source:
success, cross-device failure (`errno.EXDEV`), or any other `OSError`. -/
inductive RenameOutcome where
  | ok
  | exdev
  | fail
deriving DecidableEq, Repr

/-- Effective result of `os.rename`: a missing source forces `ENOENT`,
otherwise the environment decides. -/
inductive RenEff where
  | moved (fs : FSm)
  | enoent
  | exdev
  | failed

/-- One `os.rename(src, dst)` attempt over the modelled filesystem. -/
def tryRename (fs : FSm) (src dst : String) (o : RenameOutcome) : RenEff :=
  match fs src with
  | none => .enoent
  | some v =>
    match o with
    | .ok => .moved (fsRemove (fsSet fs dst v) src)
    | .exdev => .exdev
    | .fail => .failed

/-- Outcomes of the OS calls `restore_backup` makes, in call order. -/
structure BackupEnv where
  ren1 : RenameOutcome
  copy1ok : Bool
  ren2 : RenameOutcome
  copy2ok : Bool
deriving DecidableEq, Repr

/-- First phase of `restore_backup`: try to move the current project aside
to `filename + ".back"`; a cross-device failure falls back to a copy, and
`ENOENT`, copy failure and other failures are logged and ignored. -/
def backupFirst (env : BackupEnv) (fs : FSm) (filename : String) : FSm :=
  match tryRename fs filename (filename ++ ".back") env.ren1 with
  | .moved fs2 => fs2
  | .enoent => fs
  | .exdev =>
    (match fs filename with
     | some v =>
         if env.copy1ok then fsSet fs (filename ++ ".back") v else fs
     | none => fs)
  | .failed => fs

/-- Second phase of `restore_backup`: move the backup over the destination;
on `EXDEV` fall back to copy-then-delete, the `finally` clause deleting the
backup even when the copy raised; `ENOENT` and other failures leave the
backup in place. -/
def backupSecond (env : BackupEnv) (fs1 : FSm)
    (filename fbackup : String) : FSm :=
  match tryRename fs1 fbackup filename env.ren2 with
  | .moved fs2 => fs2
  | .enoent => fs1
  | .exdev =>
    (match fs1 fbackup with
     | some v =>
         if env.copy2ok then fsRemove (fsSet fs1 filename v) fbackup
         else fsRemove fs1 fbackup
     | none => fs1)
  | .failed => fs1

/-- `restore_backup(filename, fbackup)`, transcribed phase for phase: a
no-op unless the backup file exists. -/
def restore_backup (env : BackupEnv) (fs : FSm)
    (filename fbackup : String) : FSm :=
  if isfile fs fbackup then
    backupSecond env (backupFirst env fs filename) filename fbackup
  else fs

/-- The newline character, written via its code point. -/
def nlChar : Char := Char.ofNat 10

/-- The lines of a file's contents, as the read loop consumes them. -/
def linesOfContent (c : String) : List String :=
  (splitOnChar nlChar c.data).map String.mk

/-- `ConfigFile.restore` on a filename: run `restore_backup` against the
`~`-suffixed sibling, then open the file and parse it with
`__restore_from`; a missing file is an `IOError`.  Returns the filesystem
after crash recovery together with the parse result. -/
def restoreProject (gen : String → Nat → String) (env : BackupEnv)
    (fs : FSm) (filename : String) : FSm × Except String Factory :=
  match (restore_backup env fs filename (filename ++ "~")) filename with
  | none => (restore_backup env fs filename (filename ++ "~"),
             .error "IOError")
  | some content =>
      (restore_backup env fs filename (filename ++ "~"),
       restoreFrom gen emptyFactory (linesOfContent content))

end CF

/-! ### Concrete instances used by witnesses and counterexamples -/

/-- A concrete baseline brick used to instantiate witnesses. -/
def brickBase : PB.Brick :=
  { name := "sw0", btype := "Switch", sudoFlag := false,
    configuredFlag := false, plugs := [], proc := none, pid := 0,
    run_condition := false, active := false, need_restart := false,
    internal_console := false, homehost := none,
    pon_vbevent := "", poff_vbevent := "" }

/-- A concrete baseline start environment used to instantiate witnesses. -/
def envBase : PB.StartEnv :=
  { tcpNone := true, argsResult := some ["prog"], sudoPath := "gksu",
    spawnPid := some 42, consoleOk := false,
    eventExists := fun _ => false }

/-- Concrete event-name resolver for the C6 counterexample: exactly the event
`stop_ev` exists. -/
def ev6 : String → Bool := fun s => s == "stop_ev"

/-- A running brick whose stop slot names `stop_ev` and whose start slot is
empty, for the C6 counterexample. -/
def b6 : PB.Brick :=
  { brickBase with poff_vbevent := "stop_ev", proc := some 5,
                   run_condition := true, active := true }

/-- Stop environment for the C6 counterexample: the process has already
exited, and `stop_ev` resolves. -/
def env6 : PB.StopEnv :=
  { tcpNone := false, pollFirst := some 0, sudoKillRet := 0, killRet := 0,
    terminates := true, eventExists := ev6 }

/-- A privileged non-Qemu brick for the C3 counterexample. -/
def bSudo : PB.Brick :=
  { brickBase with name := "x", configuredFlag := true, sudoFlag := true }

/-- Start environment for the C3 counterexample: TCP-control inactive, a
three-element argument vector, successful spawn. -/
def envSudo : PB.StartEnv :=
  { tcpNone := true, argsResult := some ["p", "a", "b"], sudoPath := "gksu",
    spawnPid := some 7, consoleOk := false, eventExists := fun _ => false }

/-- The brick state after a successful local spawn in `_poweron`: handle and
pid recorded, console opened, run flag raised, marked active. -/
def PB.startedState (b : PB.Brick) (env : PB.StartEnv) (p : Int) : PB.Brick :=
  { b with proc := some p, pid := p, internal_console := env.consoleOk,
           run_condition := true, active := true }

/-- The brick state after a completed `poweroff` teardown: run flag and
handle cleared, restart flag cleared, console closed, marked inactive. -/
def PB.stopState (b : PB.Brick) : PB.Brick :=
  { b with run_condition := false, proc := none, need_restart := false,
           internal_console := false, active := false }

/-- Concrete stop environment for the C5 witness: the process has already
exited when `poweroff` polls it. -/
def env2c : PB.StopEnv :=
  { tcpNone := false, pollFirst := some 0, sudoKillRet := 0, killRet := 0,
    terminates := true, eventExists := fun _ => false }

/-- A Qemu plug in a non-vde mode, bound to a sock. -/
def plug9 : CF.Plug :=
  { brickName := "vm", brickType := "Qemu", sock := some CF.hostonly_sock,
    model := "e1000", mac := "AA", mode := "user" }

/-- A model containing a Qemu brick with a bound non-vde plug. -/
def f9 : CF.Factory :=
  { bricks := [{ name := "vm", btype := "Qemu", socks := [],
                 plugs := [plug9], config_socks := [] }],
    socks := [], events := [] }

/-- A model with a single Qemu brick owning one sock with a custom nickname. -/
def fA : CF.Factory :=
  { bricks := [{ name := "vm", btype := "Qemu",
                 socks := [{ brickName := "vm", nickname := "mynickA",
                             model := "rtl", mac := "00" }],
                 plugs := [], config_socks := [] }],
    socks := [], events := [] }

/-- The same model with the sock nickname changed — the only difference. -/
def fB : CF.Factory :=
  { bricks := [{ name := "vm", btype := "Qemu",
                 socks := [{ brickName := "vm", nickname := "mynickB",
                             model := "rtl", mac := "00" }],
                 plugs := [], config_socks := [] }],
    socks := [], events := [] }

/-- A factory with one Qemu brick named `b`, for the C8 counterexample. -/
def f8 : CF.Factory :=
  { bricks := [{ name := "b", btype := "Qemu", socks := [], plugs := [],
                 config_socks := [] }],
    socks := [], events := [] }

/-- A concrete filesystem for the C7 witness: a project file and a leftover
backup. -/
def fs7 : CF.FSm :=
  fun q => if q = "proj" then some "old"
           else if q = "proj~" then some "bak" else none

/-- A concrete OS-call environment for the C7 witness: both renames
succeed. -/
def env7 : CF.BackupEnv :=
  { ren1 := .ok, copy1ok := true, ren2 := .ok, copy2ok := true }

/-! ### Claim C4: command-line construction -/

/-- Helper: the `build_cmd_line` fold appends exactly the per-entry
contributions. -/
theorem PB.build_cmd_line_eq_flatMap (cfg : String → Option String)
    (cb : List (String × PB.CmdVal)) :
    PB.build_cmd_line cfg cb = cb.flatMap (PB.claimContribution cfg) := by
  suffices h : ∀ acc : List String,
      cb.foldl
        (fun res e =>
          if e.1.startsWith "#" then res
          else
            match PB.resolveVal cfg e.2 with
            | some value =>
                if value = "*" then res ++ [e.1]
                else if value.length > 0 then
                  (if e.1.startsWith "*" then res ++ [value]
                   else res ++ [e.1, value])
                else res
            | none => res)
        acc = acc ++ cb.flatMap (PB.claimContribution cfg) by
    simpa [PB.build_cmd_line] using h []
  induction cb with
  | nil => intro acc; simp
  | cons e rest ih =>
      intro acc
      simp only [List.foldl_cons, List.flatMap_cons]
      rw [ih]
      unfold PB.claimContribution
      by_cases h1 : e.1.startsWith "#"
      · simp [h1]
      · cases hv : PB.resolveVal cfg e.2 with
        | none => simp [h1, hv]
        | some value =>
            by_cases h2 : value = "*"
            · simp [h1, hv, h2]
            · by_cases h3 : value.length > 0
              · by_cases h4 : e.1.startsWith "*" <;>
                  simp [h1, hv, h2, h3, h4]
              · simp [h1, hv, h2, h3]

/-- C4: for every brick, the spawn argument vector has the program path as its
first token, and each command-builder entry contributes exactly per the claim:
nothing for a `#`-reserved switch, the switch alone for the wildcard sentinel
`"*"`, the switch (omitted for a `*`-marked positional-only switch) followed
by the value for a non-empty resolved value, and nothing for a missing or
empty value. -/
theorem claim_c4_build_cmd_line (prog : String) (cfg : String → Option String)
    (cb : List (String × PB.CmdVal)) :
    PB.args prog cfg cb = prog :: cb.flatMap (PB.claimContribution cfg) := by
  rw [PB.args, PB.build_cmd_line_eq_flatMap]

/-! ### Claim C2: poweron guard errors -/

/-- C2: when no global TCP-control mode is active, `poweron` fails with the
not-configured error on an unconfigured brick; otherwise with the
not-connected error when `properly_connected` is false; otherwise with the
link-integrity error when `check_links` is false.  The error is the value of
the call (raised synchronously); no `spawned` event is produced and no new
state is returned, so the brick is unchanged. -/
theorem claim_c2_poweron_guards (b : PB.Brick) (env : PB.StartEnv)
    (htcp : env.tcpNone = true) :
    (b.configuredFlag = false →
      PB.poweron b env = .error .notConfigured) ∧
    (b.configuredFlag = true → PB.properly_connected b = false →
      PB.poweron b env = .error .notConnected) ∧
    (b.configuredFlag = true → PB.properly_connected b = true →
      PB.check_links b = false →
      PB.poweron b env = .error .linkIntegrity) := by
  refine ⟨?_, ?_, ?_⟩ <;> intros <;> simp_all [PB.poweron]

theorem claim_c2_poweron_guards_witness :
    envBase.tcpNone = true ∧
    ((brickBase.configuredFlag = false →
       PB.poweron brickBase envBase = .error .notConfigured) ∧
     (brickBase.configuredFlag = true →
       PB.properly_connected brickBase = false →
       PB.poweron brickBase envBase = .error .notConnected) ∧
     (brickBase.configuredFlag = true →
       PB.properly_connected brickBase = true →
       PB.check_links brickBase = false →
       PB.poweron brickBase envBase = .error .linkIntegrity)) :=
  ⟨rfl, claim_c2_poweron_guards brickBase envBase rfl⟩

/-! ### Claim C3: privilege-escalation command rewriting -/

/-- Helper: the Qemu sudo-wrap fold appends the escaped arguments. -/
theorem PB.wrapQemu_eq (su pf : String) (cl : List String) :
    PB.wrapQemu su cl pf = su :: cl.map PB.escape ++ ["-pidfile", pf] := by
  have h : ∀ (l : List String) (acc : List String),
      l.foldl (fun acc a => acc ++ [PB.escape a]) acc
        = acc ++ l.map PB.escape := by
    intro l
    induction l with
    | nil => intro acc; simp
    | cons a rest ih => intro acc; simp [ih]
  simp [PB.wrapQemu, h]

/-- C3 counterexample: for a non-Qemu privileged brick whose original vector
has three elements, the in-place rewrite leaves the third element in place —
`_poweron` hands `Popen` the three-element
`["gksu", "p a b -P /tmp/x.pid", "b"]` — so the invoked vector is not the
claimed two-element `[privilege-launcher, joined-string]`. -/
theorem claim_c3_counterexample :
    PB.wrapOther "gksu" ["p", "a", "b"] "/tmp/x.pid"
      = some ["gksu", "p a b -P /tmp/x.pid", "b"] ∧
    PB.wrapOther "gksu" ["p", "a", "b"] "/tmp/x.pid"
      ≠ some ["gksu",
              PB.escape (PB.sudoargOf ["p", "a", "b"] "/tmp/x.pid")] ∧
    PB.poweronImpl bSudo envSudo
      = .ok ({ bSudo with proc := some 7, pid := 7,
                          internal_console := false, run_condition := true,
                          active := true },
             [.spawned ["gksu", "p a b -P /tmp/x.pid", "b"],
              .brickStarted "x"]) := by
  refine ⟨by decide, by decide, rfl⟩

/-- C3 amended: for a privileged Qemu brick the vector is wholly replaced by
`[privilege-launcher, escaped original args…, "-pidfile", pidfile]`; for every
other privileged type slots 0 and 1 of the original vector are overwritten in
place — slot 0 with the launcher and slot 1 with the escape of the
space-joined original arguments followed by `-P <pidfile>` — while every
element from index 2 of the original vector is left behind (so the invoked
vector is two elements only when the original had exactly two); escaping
backslash-escapes embedded double quotes. -/
theorem claim_c3_amended (su pf : String) :
    (∀ cl : List String,
      PB.wrapQemu su cl pf = su :: cl.map PB.escape ++ ["-pidfile", pf]) ∧
    (∀ cl : List String, 2 ≤ cl.length →
      PB.wrapOther su cl pf
        = some (su :: PB.escape (PB.sudoargOf cl pf) :: cl.drop 2)) ∧
    PB.escape "a\"b" = "a\\\"b" := by
  refine ⟨fun cl => PB.wrapQemu_eq su pf cl, ?_, by decide⟩
  intro cl h
  match cl, h with
  | a :: c :: rest, _ =>
      simp [PB.wrapOther, List.set]

theorem claim_c3_amended_witness :
    2 ≤ (["p", "a", "b"] : List String).length ∧
    PB.wrapOther "gksu" ["p", "a", "b"] "/tmp/wit.pid"
      = some ("gksu"
          :: PB.escape (PB.sudoargOf ["p", "a", "b"] "/tmp/wit.pid")
          :: (["p", "a", "b"] : List String).drop 2) :=
  ⟨by decide,
   (claim_c3_amended "gksu" "/tmp/wit.pid").2.1 ["p", "a", "b"] (by decide)⟩

/-! ### Claim C6: related-event trigger evaluation -/

/-- C6 counterexample: a completed poweroff of a brick whose `on_stop_event`
slot names the existing event `stop_ev` while its `on_start_event` slot is
empty emits only `brick-stopped` — poweron is never invoked on `stop_ev`,
so the trigger does not depend only on the relevant slot. -/
theorem claim_c6_counterexample :
    b6.poff_vbevent = "stop_ev" ∧
    b6.pon_vbevent = "" ∧
    ev6 "stop_ev" = true ∧
    PB.poweroff b6 env6
      = .ret { brickBase with poff_vbevent := "stop_ev", proc := none,
                              run_condition := false, active := false }
          [PB.BEvent.brickStopped "sw0"] ∧
    (PB.post_poweroff b6 ev6).2 ≠ [PB.BEvent.evPoweron "stop_ev"] := by
  refine ⟨rfl, rfl, rfl, rfl, by decide⟩

/-- C6 amended: after a successful poweron the trigger depends only on the
`on_start_event` slot exactly as claimed; after poweroff, because the call
`start_related_events(off=True)` leaves `on` at its default `True`, the stop
trigger fires only when *both* slots are non-empty — with an empty
`on_start_event` slot nothing happens even when `on_stop_event` names a
resolvable event; otherwise the stop event is resolved and fired, with a
logged warning when it does not resolve. -/
theorem claim_c6_amended (b : PB.Brick) (ex : String → Bool) :
    (PB.post_poweron b ex).2
      = (if b.pon_vbevent = "" then []
         else if ex b.pon_vbevent then [PB.BEvent.evPoweron b.pon_vbevent]
         else [PB.BEvent.warned]) ∧
    (PB.post_poweroff b ex).2
      = (if b.poff_vbevent = "" ∨ b.pon_vbevent = "" then []
         else if ex b.poff_vbevent then [PB.BEvent.evPoweron b.poff_vbevent]
         else [PB.BEvent.warned]) ∧
    (PB.post_poweron b ex).1.active = true ∧
    (PB.post_poweroff b ex).1.active = false := by
  refine ⟨?_, ?_, rfl, rfl⟩
  · by_cases h1 : b.pon_vbevent = "" <;>
      by_cases h2 : ex b.pon_vbevent <;>
        simp [PB.post_poweron, PB.start_related_events, h1, h2]
  · by_cases h1 : b.poff_vbevent = "" <;>
      by_cases h2 : b.pon_vbevent = "" <;>
        by_cases h3 : ex b.poff_vbevent <;>
          simp [PB.post_poweroff, PB.start_related_events, h1, h2, h3]

/-! ### Claim C5: poweron/poweroff round trip -/

/-- Helper: a local brick with no handle, passing guards, with a successful
spawn, ends `poweron` in `startedState`. -/
theorem PB.poweron_spawn (b : PB.Brick) (env : PB.StartEnv)
    (cl : List String) (p : Int)
    (hh : b.homehost = none) (hp : b.proc = none)
    (hguard : env.tcpNone = true →
      b.configuredFlag = true ∧ PB.properly_connected b = true ∧
      PB.check_links b = true)
    (hargs : env.argsResult = some cl)
    (hwrap : PB.needsudo env.tcpNone b = true →
      b.btype = "Qemu" ∨ 2 ≤ cl.length)
    (hspawn : env.spawnPid = some p) :
    ∃ evs, PB.poweron b env = .ok (PB.startedState b env p, evs) := by
  have himpl : ∃ evs,
      PB.poweronImpl b env = .ok (PB.startedState b env p, evs) := by
    by_cases hsudo : PB.needsudo env.tcpNone b = true
    · rcases hwrap hsudo with hq | hlen
      · simp [PB.poweronImpl, hp, hargs, hh, hspawn, hsudo, hq,
              PB.post_poweron, PB.startedState]
        exact ⟨_, rfl⟩
      · have hw : ∃ w, PB.wrapOther env.sudoPath cl (PB.pidfileOf b)
            = some w := by
          simp [PB.wrapOther, hlen]
        obtain ⟨w, hw⟩ := hw
        by_cases hq : b.btype = "Qemu" <;>
          · simp [PB.poweronImpl, hp, hargs, hh, hspawn, hsudo, hq, hw,
                  PB.post_poweron, PB.startedState]
            exact ⟨_, rfl⟩
    · have hs : PB.needsudo env.tcpNone b = false := by
        simpa using hsudo
      simp [PB.poweronImpl, hp, hargs, hh, hspawn, hs,
            PB.post_poweron, PB.startedState]
      exact ⟨_, rfl⟩
  obtain ⟨evs, he⟩ := himpl
  by_cases htcp : env.tcpNone = true
  · obtain ⟨h1, h2, h3⟩ := hguard htcp
    refine ⟨evs ++ [.changed], ?_⟩
    simp [PB.poweron, htcp, h1, h2, h3, he]
    rfl
  · have ht : env.tcpNone = false := by simpa using htcp
    refine ⟨evs ++ [.changed], ?_⟩
    simp [PB.poweron, ht, he]
    rfl

/-- Helper: a local running brick whose process is already dead, or is killed
successfully with a trackable pid, ends `poweroff` in `stopState`. -/
theorem PB.poweroff_completes (b : PB.Brick) (env : PB.StopEnv) (p : Int)
    (hproc : b.proc = some p) (hrun : b.run_condition = true)
    (hh : b.homehost = none)
    (hstop : env.pollFirst = none →
      env.terminates = true ∧
      ((env.tcpNone && b.sudoFlag) = true → env.sudoKillRet = 0) ∧
      ((env.tcpNone && b.sudoFlag) = false →
        1 < p ∧ env.killRet = 0)) :
    ∃ evs, PB.poweroff b env = .ret (PB.stopState b) evs := by
  cases hpf : env.pollFirst with
  | some code =>
      simp [PB.poweroff, hproc, hrun, hh, hpf,
            PB.post_poweroff, PB.stopState]
  | none =>
      obtain ⟨hterm, hsk, hk⟩ := hstop hpf
      by_cases hsudo : (env.tcpNone && b.sudoFlag) = true
      · have h0 := hsk hsudo
        simp [PB.poweroff, hproc, hrun, hh, hpf, PB.needsudo, hsudo, h0,
              hterm, PB.post_poweroff, PB.stopState]
      · have hns : (env.tcpNone && b.sudoFlag) = false := by
          simpa using hsudo
        obtain ⟨hp1, hk0⟩ := hk hns
        have hple : ¬p ≤ 1 := not_le.mpr hp1
        simp [PB.poweroff, hproc, hrun, hh, hpf, PB.needsudo, hns, hple,
              hk0, hterm, PB.post_poweroff, PB.stopState]

/-- C5: for a local brick (no home host, no existing handle) whose spawn
succeeds and whose process eventually reports terminated (it is already dead
at stop time, or the kill path succeeds on a trackable pid), `poweron`
followed by `poweroff` leaves the process handle equal to none and the
active flag false. -/
theorem claim_c5_poweron_poweroff (b : PB.Brick) (env1 : PB.StartEnv)
    (env2 : PB.StopEnv) (cl : List String) (p : Int)
    (hh : b.homehost = none) (hp : b.proc = none)
    (hguard : env1.tcpNone = true →
      b.configuredFlag = true ∧ PB.properly_connected b = true ∧
      PB.check_links b = true)
    (hargs : env1.argsResult = some cl)
    (hwrap : PB.needsudo env1.tcpNone b = true →
      b.btype = "Qemu" ∨ 2 ≤ cl.length)
    (hspawn : env1.spawnPid = some p)
    (hstop : env2.pollFirst = none →
      env2.terminates = true ∧
      ((env2.tcpNone && b.sudoFlag) = true → env2.sudoKillRet = 0) ∧
      ((env2.tcpNone && b.sudoFlag) = false →
        1 < p ∧ env2.killRet = 0)) :
    ∃ b1 evs1 b2 evs2,
      PB.poweron b env1 = .ok (b1, evs1) ∧
      PB.poweroff b1 env2 = .ret b2 evs2 ∧
      b2.proc = none ∧ b2.active = false := by
  obtain ⟨evs1, h1⟩ :=
    PB.poweron_spawn b env1 cl p hh hp hguard hargs hwrap hspawn
  obtain ⟨evs2, h2⟩ :=
    PB.poweroff_completes (PB.startedState b env1 p) env2 p
      (by simp [PB.startedState]) (by simp [PB.startedState])
      (by simp [PB.startedState, hh])
      (by simpa [PB.startedState] using hstop)
  exact ⟨_, _, _, _, h1, h2, by simp [PB.stopState],
         by simp [PB.stopState]⟩

theorem claim_c5_poweron_poweroff_witness :
    ({ brickBase with configuredFlag := true } : PB.Brick).homehost = none ∧
    ({ brickBase with configuredFlag := true } : PB.Brick).proc = none ∧
    ∃ b1 evs1 b2 evs2,
      PB.poweron { brickBase with configuredFlag := true } envBase
        = .ok (b1, evs1) ∧
      PB.poweroff b1 env2c = .ret b2 evs2 ∧
      b2.proc = none ∧ b2.active = false :=
  ⟨rfl, rfl,
   claim_c5_poweron_poweroff { brickBase with configuredFlag := true }
     envBase env2c ["prog"] 42 rfl rfl
     (fun _ => ⟨rfl, rfl, rfl⟩) rfl (by decide) rfl (by decide)⟩

/-! ### Claim C10: poweroff with an untrackable pid -/

/-- C10: a local, non-privileged brick whose process is alive but whose
tracked pid is ≤ 1 has `poweroff` return immediately with the run flag
cleared, the process handle still set, the active flag untouched, and no
`brick-stopped` event; every later `poweroff` on the resulting state — under
any environment — is then a no-op. -/
theorem claim_c10_low_pid_stuck (b : PB.Brick) (env : PB.StopEnv) (p : Int)
    (hproc : b.proc = some p) (hpid : p ≤ 1)
    (hrun : b.run_condition = true) (hhh : b.homehost = none)
    (halive : env.pollFirst = none)
    (hns : (env.tcpNone && b.sudoFlag) = false) :
    PB.poweroff b env = .ret { b with run_condition := false } [] ∧
    ({ b with run_condition := false } : PB.Brick).proc = some p ∧
    ({ b with run_condition := false } : PB.Brick).active = b.active ∧
    ∀ env2 : PB.StopEnv,
      PB.poweroff { b with run_condition := false } env2
        = .ret { b with run_condition := false } [] := by
  refine ⟨?_, by simp [hproc], rfl, ?_⟩
  · simp [PB.poweroff, hproc, hrun, hhh, halive, PB.needsudo, hns, hpid]
  · intro env2
    simp [PB.poweroff, hproc]

theorem claim_c10_low_pid_stuck_witness :
    ({ brickBase with proc := some 1, run_condition := true,
                      active := true } : PB.Brick).proc = some 1 ∧
    (1 : Int) ≤ 1 ∧
    PB.poweroff
        { brickBase with proc := some 1, run_condition := true,
                         active := true }
        { tcpNone := false, pollFirst := none, sudoKillRet := 0,
          killRet := 0, terminates := true,
          eventExists := fun _ => false }
      = .ret { brickBase with proc := some 1, run_condition := false,
                              active := true } [] := by
  refine ⟨rfl, le_refl 1, ?_⟩
  have h := claim_c10_low_pid_stuck
    { brickBase with proc := some 1, run_condition := true, active := true }
    { tcpNone := false, pollFirst := none, sudoKillRet := 0,
      killRet := 0, terminates := true, eventExists := fun _ => false }
    1 rfl (le_refl 1) rfl rfl rfl rfl
  exact h.1

/-! ### Claim C9: userlink trailer lines -/

/-- C9: the claim says save completes and writes
`userlink|<brickName>||<model>|<mac>`; on the code, formatting the userlink
template — whose last replacement field is the undefined keyword `pl` —
raises `KeyError`, so `save` aborts for every model containing a Qemu brick
with a bound plug whose mode is not `vde`. -/
theorem claim_c9_userlink_save_raises :
    plug9.mode ≠ "vde" ∧ plug9.brickType = "Qemu" ∧
    plug9.sock.isSome = true ∧
    CF.saveLines f9 = .error "KeyError: pl" := by
  refine ⟨by decide, rfl, rfl, rfl⟩

/-! ### Claim C1: save/restore round trip -/

/-- C1: the round trip cannot preserve sock nicknames.  `fA` and `fB` differ
only in the sock's (unique) nickname, and their saved files differ, yet
`restore` produces the same model for both — under *every* nickname
generation rule — because `__restore_from` parses the nickname into a dead
variable and calls `add_sock(macaddr, model)` without it; the restored
nickname is the generated `gen "vm" 0`, not the saved one.  Hence at least
one of the two models (in fact any model whose nickname differs from the
generated default) fails the claimed round trip. -/
theorem claim_c1_roundtrip_drops_nicknames (gen : String → Nat → String) :
    CF.sockNicknames fA ≠ CF.sockNicknames fB ∧
    CF.saveLines fA = .ok ["[Qemu:vm]", "sock|vm|mynickA|rtl|00"] ∧
    CF.saveLines fB = .ok ["[Qemu:vm]", "sock|vm|mynickB|rtl|00"] ∧
    CF.restoreFrom gen CF.emptyFactory ((CF.saveLines fA).toOption.getD [])
      = CF.restoreFrom gen CF.emptyFactory
          ((CF.saveLines fB).toOption.getD []) ∧
    (CF.restoreFrom gen CF.emptyFactory
        ((CF.saveLines fA).toOption.getD [])).map CF.sockNicknames
      = .ok [gen "vm" 0] := by
  refine ⟨by decide, rfl, rfl, rfl, rfl⟩

/-! ### Claim C8: trailer-line robustness -/

/-- C8 counterexample: the line `sock|b|x` matches the `sock|` prefix and has
exactly 3 pipe-delimited fields, yet restoring it against a factory whose
brick `b` is of type Qemu raises an uncaught `IndexError` (the branch reads
fields 3 and 4), aborting the load. -/
theorem claim_c8_counterexample :
    CF.containsSub "sock|" "sock|b|x" = true ∧
    (CF.fields "sock|b|x").length = 3 ∧
    CF.restoreFrom CF.defaultGen f8 ["sock|b|x"]
      = .error "IndexError" := by
  refine ⟨rfl, by decide, rfl⟩

/-- Helper: fields 3 and 4 exist on a record of at least 5 fields. -/
theorem CF.get?_exists_of_len (xs : List String) (i : Nat)
    (h : i < xs.length) : ∃ m, xs.get? i = some m := by
  have hne : xs.get? i ≠ none := by
    simp only [ne_eq, List.get?_eq_none]
    omega
  exact Option.ne_none_iff_exists'.mp hne

/-- Helper: with at least 5 fields, the per-brick sock step never raises. -/
theorem CF.sockOne_ok_of_len (gen : String → Nat → String)
    (xs : List String) (h5 : 5 ≤ xs.length) (b : CF.Brick) :
    ∃ r, CF.sockOne gen xs b = .ok r := by
  unfold CF.sockOne
  split
  · split
    · split
      · exact ⟨_, rfl⟩
      · rename_i hmatch
        obtain ⟨m3, h3⟩ := CF.get?_exists_of_len xs 3 (by omega)
        obtain ⟨m4, h4⟩ := CF.get?_exists_of_len xs 4 (by omega)
        exact (hmatch m3 m4 h3 h4).elim
    · exact ⟨_, rfl⟩
  · exact ⟨_, rfl⟩

/-- Helper: with at least 5 fields, the sock branch never raises. -/
theorem CF.sockOnBricks_ok_of_len (gen : String → Nat → String)
    (xs : List String) (h5 : 5 ≤ xs.length) (bricks : List CF.Brick) :
    ∃ r, CF.sockOnBricks gen xs bricks = .ok r := by
  induction bricks with
  | nil => exact ⟨_, rfl⟩
  | cons b bs ih =>
      obtain ⟨r, hr⟩ := ih
      obtain ⟨hd, hhd⟩ := CF.sockOne_ok_of_len gen xs h5 b
      exact ⟨_, by unfold CF.sockOnBricks; rw [hr, hhd]⟩

/-- Helper: when a brick does not both match the record's name field and
have type Qemu, the per-brick sock step leaves it unchanged. -/
theorem CF.sockOne_id_of_no_qemu (gen : String → Nat → String)
    (xs : List String) (b : CF.Brick)
    (hb : ¬(b.name = xs.getD 1 "" ∧ b.btype = "Qemu")) :
    CF.sockOne gen xs b = .ok (b, []) := by
  unfold CF.sockOne
  split
  · split
    · rename_i h1 h2
      exact absurd ⟨h1, h2⟩ hb
    · rfl
  · rfl

/-- Helper: when no brick both matches the record's name field and is of
type Qemu, the sock branch changes nothing. -/
theorem CF.sockOnBricks_id_of_no_qemu (gen : String → Nat → String)
    (xs : List String) (bricks : List CF.Brick)
    (h : ∀ b ∈ bricks, ¬(b.name = xs.getD 1 "" ∧ b.btype = "Qemu")) :
    CF.sockOnBricks gen xs bricks = .ok (bricks, []) := by
  induction bricks with
  | nil => rfl
  | cons b bs ih =>
      have hrest := ih (fun x hx => h x (by simp [hx]))
      have hone := CF.sockOne_id_of_no_qemu gen xs b (h b (by simp))
      unfold CF.sockOnBricks
      rw [hrest, hone]
      rfl

/-- Helper: with at least 5 fields, the per-brick link step never raises. -/
theorem CF.linkOne_ok_of_len (socks : List CF.Sock)
    (xs : List String) (h5 : 5 ≤ xs.length) (b : CF.Brick) :
    ∃ r, CF.linkOne socks xs b = .ok r := by
  unfold CF.linkOne
  split
  · split
    · split
      · split
        · exact ⟨_, rfl⟩
        · exact ⟨_, rfl⟩
      · rename_i hmatch
        obtain ⟨m3, h3⟩ := CF.get?_exists_of_len xs 3 (by omega)
        obtain ⟨m4, h4⟩ := CF.get?_exists_of_len xs 4 (by omega)
        exact (hmatch m3 m4 h3 h4).elim
    · exact ⟨_, rfl⟩
  · exact ⟨_, rfl⟩

/-- Helper: with at least 5 fields, the link branch never raises. -/
theorem CF.linkOnBricks_ok_of_len (socks : List CF.Sock)
    (xs : List String) (h5 : 5 ≤ xs.length) (bricks : List CF.Brick) :
    ∃ r, CF.linkOnBricks socks xs bricks = .ok r := by
  induction bricks with
  | nil => exact ⟨_, rfl⟩
  | cons b bs ih =>
      obtain ⟨r, hr⟩ := ih
      obtain ⟨b2, hb2⟩ := CF.linkOne_ok_of_len socks xs h5 b
      exact ⟨_, by unfold CF.linkOnBricks; rw [hr, hb2]⟩

/-- Helper: a brick not both matching the name field and of type Qemu never
makes the per-brick link step raise. -/
theorem CF.linkOne_ok_of_no_qemu (socks : List CF.Sock)
    (xs : List String) (b : CF.Brick)
    (hb : ¬(b.name = xs.getD 1 "" ∧ b.btype = "Qemu")) :
    ∃ r, CF.linkOne socks xs b = .ok r := by
  unfold CF.linkOne
  split
  · split
    · rename_i h1 h2
      exact absurd ⟨h1, h2⟩ hb
    · exact ⟨_, rfl⟩
  · exact ⟨_, rfl⟩

/-- Helper: when no brick both matches the record's name field and is of
type Qemu, the link branch never raises (matching non-Qemu bricks only queue
the nickname). -/
theorem CF.linkOnBricks_ok_of_no_qemu (socks : List CF.Sock)
    (xs : List String) (bricks : List CF.Brick)
    (h : ∀ b ∈ bricks, ¬(b.name = xs.getD 1 "" ∧ b.btype = "Qemu")) :
    ∃ r, CF.linkOnBricks socks xs bricks = .ok r := by
  induction bricks with
  | nil => exact ⟨_, rfl⟩
  | cons b bs ih =>
      obtain ⟨r, hr⟩ := ih (fun x hx => h x (by simp [hx]))
      obtain ⟨b2, hb2⟩ := CF.linkOne_ok_of_no_qemu socks xs b (h b (by simp))
      exact ⟨_, by unfold CF.linkOnBricks; rw [hr, hb2]⟩

/-- Helper: a privileged form of `sockBranch` success, for long records. -/
theorem CF.sockBranch_ok_of_len (gen : String → Nat → String)
    (f : CF.Factory) (xs : List String) (h5 : 5 ≤ xs.length) :
    ∃ f1, CF.sockBranch gen f xs = .ok f1 := by
  obtain ⟨r, hr⟩ := CF.sockOnBricks_ok_of_len gen xs h5 f.bricks
  unfold CF.sockBranch
  rw [hr]
  exact ⟨_, rfl⟩

/-- Helper: `sockBranch` is the identity when the record names no Qemu
brick of the factory. -/
theorem CF.sockBranch_id_of_no_qemu (gen : String → Nat → String)
    (f : CF.Factory) (xs : List String)
    (h : ∀ b ∈ f.bricks, ¬(b.name = xs.getD 1 "" ∧ b.btype = "Qemu")) :
    CF.sockBranch gen f xs = .ok f := by
  unfold CF.sockBranch
  rw [CF.sockOnBricks_id_of_no_qemu gen xs f.bricks h]
  cases f
  simp

/-- Helper: `linkBranch` success for long records. -/
theorem CF.linkBranch_ok_of_len (f : CF.Factory) (xs : List String)
    (h5 : 5 ≤ xs.length) : ∃ f1, CF.linkBranch f xs = .ok f1 := by
  obtain ⟨bs, hbs⟩ := CF.linkOnBricks_ok_of_len f.socks xs h5 f.bricks
  unfold CF.linkBranch
  rw [hbs]
  exact ⟨_, rfl⟩

/-- Helper: `linkBranch` success when the record names no Qemu brick. -/
theorem CF.linkBranch_ok_of_no_qemu (f : CF.Factory) (xs : List String)
    (h : ∀ b ∈ f.bricks, ¬(b.name = xs.getD 1 "" ∧ b.btype = "Qemu")) :
    ∃ f1, CF.linkBranch f xs = .ok f1 := by
  obtain ⟨bs, hbs⟩ := CF.linkOnBricks_ok_of_no_qemu f.socks xs f.bricks h
  unfold CF.linkBranch
  rw [hbs]
  exact ⟨_, rfl⟩

/-- Helper: a trailer line with at least 5 fields, or one naming no Qemu
brick, runs both trailer branches without an uncaught exception. -/
theorem CF.trailerStep_ok (gen : String → Nat → String) (f : CF.Factory)
    (s : String)
    (hok : 5 ≤ (CF.fields s).length ∨
           ∀ b ∈ f.bricks,
             ¬(b.name = (CF.fields s).getD 1 "" ∧ b.btype = "Qemu")) :
    ∃ f1, CF.trailerStep gen f s = .ok f1 := by
  have hfst : ∃ f1,
      (if CF.containsSub "sock|" s = true ∧ 3 ≤ (CF.fields s).length
       then CF.sockBranch gen f (CF.fields s) else .ok f) = .ok f1 ∧
      (5 ≤ (CF.fields s).length ∨
       ∀ b ∈ f1.bricks,
         ¬(b.name = (CF.fields s).getD 1 "" ∧ b.btype = "Qemu")) := by
    by_cases hg1 : CF.containsSub "sock|" s = true ∧ 3 ≤ (CF.fields s).length
    · rcases hok with h5 | hnq
      · obtain ⟨f1, h1⟩ := CF.sockBranch_ok_of_len gen f (CF.fields s) h5
        exact ⟨f1, by rw [if_pos hg1, h1], Or.inl h5⟩
      · exact ⟨f, by rw [if_pos hg1, CF.sockBranch_id_of_no_qemu gen f _ hnq],
               Or.inr hnq⟩
    · exact ⟨f, by rw [if_neg hg1], hok⟩
  obtain ⟨f1, h1, hok1⟩ := hfst
  have hsnd : ∃ f2,
      (if CF.containsSub "link|" s = true ∧ 3 ≤ (CF.fields s).length
       then CF.linkBranch f1 (CF.fields s) else .ok f1) = .ok f2 := by
    by_cases hg2 : CF.containsSub "link|" s = true ∧ 3 ≤ (CF.fields s).length
    · rcases hok1 with h5 | hnq
      · obtain ⟨f2, h2⟩ := CF.linkBranch_ok_of_len f1 (CF.fields s) h5
        exact ⟨f2, by rw [if_pos hg2, h2]⟩
      · obtain ⟨f2, h2⟩ := CF.linkBranch_ok_of_no_qemu f1 (CF.fields s) hnq
        exact ⟨f2, by rw [if_pos hg2, h2]⟩
    · exact ⟨f1, by rw [if_neg hg2]⟩
  obtain ⟨f2, h2⟩ := hsnd
  refine ⟨f2, ?_⟩
  unfold CF.trailerStep
  rw [h1]
  exact h2

/-- C8 amended: a trailer line matching `sock|` or `link|` with at least 3
pipe-delimited fields is consumed without an uncaught exception — and
parsing continues with the rest of the file — provided it either has at
least 5 fields or names no brick of type Qemu.  (As the counterexample
shows, a 3- or 4-field record naming a Qemu brick raises an uncaught
`IndexError` from the accesses to fields 3 and 4, aborting the load; a line
starting with `[` is additionally subject to header processing.) -/
theorem claim_c8_amended (gen : String → Nat → String) (f : CF.Factory)
    (l : String) (rest : List String)
    (_hmatch : CF.containsSub "sock|" (CF.removeSpaces l) = true ∨
               CF.containsSub "link|" (CF.removeSpaces l) = true)
    (_hlen : 3 ≤ (CF.fields (CF.removeSpaces l)).length)
    (hhdr : CF.startsWithStr (CF.removeSpaces l) "[" = false)
    (hok : 5 ≤ (CF.fields (CF.removeSpaces l)).length ∨
           ∀ b ∈ f.bricks,
             ¬(b.name = (CF.fields (CF.removeSpaces l)).getD 1 "" ∧
               b.btype = "Qemu")) :
    ∃ f1, CF.trailerStep gen f (CF.removeSpaces l) = .ok f1 ∧
      CF.restoreFrom gen f (l :: rest) = CF.restoreFrom gen f1 rest := by
  obtain ⟨f1, h1⟩ := CF.trailerStep_ok gen f (CF.removeSpaces l) hok
  refine ⟨f1, h1, ?_⟩
  unfold CF.restoreFrom
  rw [CF.restoreLoop]
  simp [h1, hhdr]

theorem claim_c8_amended_witness :
    (CF.containsSub "sock|" (CF.removeSpaces "sock|b|n|m|mac") = true ∨
     CF.containsSub "link|" (CF.removeSpaces "sock|b|n|m|mac") = true) ∧
    3 ≤ (CF.fields (CF.removeSpaces "sock|b|n|m|mac")).length ∧
    CF.startsWithStr (CF.removeSpaces "sock|b|n|m|mac") "[" = false ∧
    ∃ f1, CF.trailerStep CF.defaultGen f8
            (CF.removeSpaces "sock|b|n|m|mac") = .ok f1 ∧
      CF.restoreFrom CF.defaultGen f8 ["sock|b|n|m|mac"]
        = CF.restoreFrom CF.defaultGen f1 [] :=
  ⟨Or.inl rfl, by decide, rfl,
   claim_c8_amended CF.defaultGen f8 "sock|b|n|m|mac" []
     (Or.inl rfl) (by decide) rfl (Or.inl (by decide))⟩

/-! ### Claim C7: crash-recovery backup restoration -/

/-- Helper: appending a non-empty suffix changes a string. -/
theorem CF.append_ne_self (a : String) {b : String} (h : b.length ≠ 0) :
    ¬(a ++ b = a) := by
  intro he
  have hl := congrArg String.length he
  rw [String.length_append] at hl
  omega

/-- Helper: appending suffixes of different lengths gives different
strings. -/
theorem CF.append_ne_append (a : String) {b c : String}
    (h : b.length ≠ c.length) : ¬(a ++ b = a ++ c) := by
  intro he
  have hl := congrArg String.length he
  rw [String.length_append, String.length_append] at hl
  omega

/-- Helper: the first backup phase touches only `filename` and
`filename + ".back"`. -/
theorem CF.backupFirst_preserves (env : CF.BackupEnv) (fs : CF.FSm)
    (filename p : String) (hp1 : ¬p = filename)
    (hp2 : ¬p = filename ++ ".back") :
    CF.backupFirst env fs filename p = fs p := by
  unfold CF.backupFirst CF.tryRename
  cases hsrc : fs filename with
  | none => rfl
  | some v =>
      cases h1 : env.ren1 with
      | ok => simp [CF.fsRemove, CF.fsSet, hp1, hp2]
      | exdev =>
          by_cases hcp : env.copy1ok = true <;>
            simp [hcp, CF.fsSet, hp2]
      | fail => rfl

/-- Helper: when the backup exists and the second rename either succeeds or
falls back to a successful cross-device copy, the second phase moves the
backup's contents over the destination and deletes the backup. -/
theorem CF.backupSecond_spec (env : CF.BackupEnv) (fs1 : CF.FSm)
    (filename fbackup b : String) (hfb : fs1 fbackup = some b)
    (hne : ¬fbackup = filename)
    (hren : env.ren2 = .ok ∨ (env.ren2 = .exdev ∧ env.copy2ok = true)) :
    CF.backupSecond env fs1 filename fbackup fbackup = none ∧
    CF.backupSecond env fs1 filename fbackup filename = some b := by
  have hne2 : ¬filename = fbackup := fun h => hne h.symm
  unfold CF.backupSecond CF.tryRename
  rw [hfb]
  rcases hren with h | ⟨h, hc⟩
  · rw [h]
    constructor
    · simp [CF.fsRemove]
    · simp [CF.fsRemove, CF.fsSet, hne2]
  · rw [h, hc]
    constructor
    · simp [CF.fsRemove]
    · simp [CF.fsRemove, CF.fsSet, hne2]

/-- C7: when a `~`-suffixed backup of the project file exists, `restore`
moves its contents into place over the destination before any line is
parsed — the lines handed to `__restore_from` are exactly the backup's —
and after the call the `~`-suffixed file no longer exists.  (Hypothesis: the
rename into place either succeeds or fails cross-device with a successful
copy, the two recovery modes; a backup left unreadable by any *other*
`OSError` is logged and abandoned by the source, outside this claim.) -/
theorem claim_c7_backup_restored (gen : String → Nat → String)
    (env : CF.BackupEnv) (fs : CF.FSm) (filename b : String)
    (hb : fs (filename ++ "~") = some b)
    (hren : env.ren2 = .ok ∨ (env.ren2 = .exdev ∧ env.copy2ok = true)) :
    (CF.restoreProject gen env fs filename).1 (filename ++ "~") = none ∧
    (CF.restoreProject gen env fs filename).1 filename = some b ∧
    (CF.restoreProject gen env fs filename).2
      = CF.restoreFrom gen CF.emptyFactory (CF.linesOfContent b) := by
  have hne1 : ¬(filename ++ "~" = filename) :=
    CF.append_ne_self filename (by decide)
  have hne2 : ¬(filename ++ "~" = filename ++ ".back") :=
    CF.append_ne_append filename (by decide)
  have hfb1 : CF.backupFirst env fs filename (filename ++ "~") = some b := by
    rw [CF.backupFirst_preserves env fs filename _ hne1 hne2]
    exact hb
  obtain ⟨hs1, hs2⟩ :=
    CF.backupSecond_spec env (CF.backupFirst env fs filename) filename
      (filename ++ "~") b hfb1 hne1 hren
  have hrb : CF.restore_backup env fs filename (filename ++ "~")
      = CF.backupSecond env (CF.backupFirst env fs filename) filename
          (filename ++ "~") := by
    unfold CF.restore_backup
    have hif : CF.isfile fs (filename ++ "~") = true := by
      simp [CF.isfile, hb]
    rw [hif]
    rfl
  unfold CF.restoreProject
  rw [hrb, hs2]
  exact ⟨hs1, hs2, rfl⟩

theorem claim_c7_backup_restored_witness :
    fs7 ("proj" ++ "~") = some "bak" ∧
    (env7.ren2 = .ok ∨ (env7.ren2 = .exdev ∧ env7.copy2ok = true)) ∧
    ((CF.restoreProject CF.defaultGen env7 fs7 "proj").1 ("proj" ++ "~")
        = none ∧
     (CF.restoreProject CF.defaultGen env7 fs7 "proj").1 "proj"
        = some "bak" ∧
     (CF.restoreProject CF.defaultGen env7 fs7 "proj").2
        = CF.restoreFrom CF.defaultGen CF.emptyFactory
            (CF.linesOfContent "bak")) :=
  ⟨by decide, Or.inl rfl,
   claim_c7_backup_restored CF.defaultGen env7 fs7 "proj" "bak"
     (by decide) (Or.inl rfl)⟩

end VirtualBricks

